import Mathlib

/-!
# Verification of the SentimoTch sensor-to-emotion pet engine

Shallow embedding of the core logic of `src/tamagotchi_v1.py` and
`src/hardware/*.py`:

* `EmotionState`, `Season`, `EnvironmentState` mirror the Python enums.
* `Pet` mirrors the mutable state of `SmartTamagotchi` that the state
  machine reads and writes (stats, sleep mode, emotion, message, timers,
  the edge-trigger "shown" flags).  Purely cosmetic fields
  (`animation_frame`, `bounce_offset`, `blink_timer`, `scale`, x/y
  position) are not modelled; they feed only the pygame renderer.
  Two ghost fields instrument the embedding without changing behaviour:
  `pickupFires` counts executions of the pickup-reward branch, and
  `sounds` logs every `play_sound` call.
* Python floats are modelled as rationals (`ℚ`); wall-clock time is an
  explicit `now : ℚ` parameter (the source calls `time.time()`).
* `update` is the sequential composition of the same phases, in the same
  order, as `SmartTamagotchi.update` (the LED phase
  `_update_led_feedback` only writes to the LED actuator and mutates no
  pet state, so it is omitted).
-/

namespace SentimoTch

inductive EmotionState where
  | happy | sad | angry | sleepy | excited | neutral | cold | hot | scared | playful
  deriving DecidableEq, Repr

inductive Season where
  | spring | summer | autumn | winter
  deriving DecidableEq, Repr

inductive EnvironmentState where
  | day | night | dawn | dusk
  deriving DecidableEq, Repr

/-- The distinct message strings assigned to `self.message`, as an enum
(the exact text is irrelevant to the state machine). -/
inductive Msg where
  | hello        -- "Hello! I'm your smart companion!"
  | pickedUp     -- "Wheee! Thanks for picking me up!"
  | shakeMore    -- "That's fun! Shake me more!"
  | lonely       -- "I feel lonely... Please interact with me!"
  | brrCold      -- "Brrr! It's so cold!"
  | tooHot       -- "It's too hot! I need some shade!"
  | darkTired    -- "It's dark and I'm tired. Time for sleep!"
  | goodMorning  -- "Good morning! The sun is shining!"
  | loudScared   -- "That was loud! I'm scared!"
  | yummy        -- "Yummy! Thank you for the delicious food!"
  | loveYou      -- "That feels wonderful! I love you so much!"
  | playBest     -- "Playing is the best! Let's do it again!"
  | goodnight    -- "Goodnight! Sweet dreams!"
  | refreshed    -- "Good morning! I feel refreshed!"
  deriving DecidableEq, Repr

/-- The fields of `HardwareManager.sensor_data` that `update` reads, plus
the manager configuration (`simulation` flag and time-of-day override)
that `get_environment_state()` consults. -/
structure Snap where
  light : ℚ
  temperature : ℚ
  sound : ℚ
  lastMovement : ℚ
  isPickedUp : Bool
  shakeDetected : Bool
  simulation : Bool
  simTime : EnvironmentState
  deriving DecidableEq, Repr

/-- The pet-engine state of `SmartTamagotchi` (behavioural fields only;
see the module docstring).  `pickupShown`/`shakeShown` model the dynamic
attributes `_pickup_message_shown`/`_shake_message_shown`
(present = `true`, absent = `false`). -/
structure Pet where
  happiness : ℚ
  energy : ℚ
  hunger : ℚ
  health : ℚ
  comfort : ℚ
  social : ℚ
  sleep_mode : Bool
  emotion : EmotionState
  message : Msg
  message_timer : ℚ
  last_interaction : ℚ
  last_fed : ℚ
  pickupShown : Bool
  shakeShown : Bool
  target_scale : ℚ
  feedings : Nat
  interactions : Nat
  play_time : Nat
  pickupFires : Nat          -- ghost: number of pickup-reward firings
  sounds : List (ℚ × ℚ)      -- ghost: (frequency, duration) of each tone
  deriving DecidableEq, Repr

/-- `SmartTamagotchi.__init__` (behavioural fields). -/
def initPet (t0 : ℚ) : Pet :=
  { happiness := 80, energy := 70, hunger := 60, health := 90
    comfort := 75, social := 60
    sleep_mode := false, emotion := EmotionState.happy
    message := Msg.hello, message_timer := 0
    last_interaction := t0, last_fed := t0
    pickupShown := false, shakeShown := false
    target_scale := 1
    feedings := 0, interactions := 0, play_time := 0
    pickupFires := 0, sounds := [] }

def idle_timeout : ℚ := 300
def neglect_timeout : ℚ := 600
def preferred_temp_min : ℚ := 18
def preferred_temp_max : ℚ := 26

/-! ## Interaction operations (`feed`, `pet`, `play`, `put_to_sleep`, `wake_up`) -/

def feed (s : Pet) (now : ℚ) : Pet :=
  { s with hunger := min 100 (s.hunger + 30)
           happiness := min 100 (s.happiness + 10)
           health := min 100 (s.health + 5)
           last_fed := now
           last_interaction := now
           message := Msg.yummy
           message_timer := 3
           target_scale := 6/5
           feedings := s.feedings + 1
           sounds := (600, 3/10) :: s.sounds }

def pet (s : Pet) (now : ℚ) : Pet :=
  { s with happiness := min 100 (s.happiness + 20)
           social := min 100 (s.social + 15)
           comfort := min 100 (s.comfort + 10)
           last_interaction := now
           message := Msg.loveYou
           message_timer := 3
           target_scale := 11/10
           interactions := s.interactions + 1
           sounds := (800, 1/5) :: s.sounds }

def play (s : Pet) (now : ℚ) : Pet :=
  { s with happiness := min 100 (s.happiness + 25)
           social := min 100 (s.social + 20)
           energy := max 0 (s.energy - 15)
           last_interaction := now
           message := Msg.playBest
           message_timer := 3
           emotion := EmotionState.playful
           play_time := s.play_time + 1
           sounds := (1000, 1/10) :: s.sounds }

def put_to_sleep (s : Pet) (now : ℚ) : Pet :=
  { s with sleep_mode := true
           energy := min 100 (s.energy + 30)
           last_interaction := now
           message := Msg.goodnight
           message_timer := 3
           emotion := EmotionState.sleepy
           sounds := (400, 1/2) :: s.sounds }

def wake_up (s : Pet) (now : ℚ) : Pet :=
  if s.sleep_mode then
    { s with sleep_mode := false
             energy := min 100 (s.energy + 10)
             happiness := min 100 (s.happiness + 5)
             message := Msg.refreshed
             message_timer := 3
             emotion := EmotionState.happy
             sounds := (800, 3/10) :: s.sounds }
  else s

/-! ## `update(dt)` phases -/

/-- The message-TTL countdown at the top of `update`. -/
def tickMessageTimer (s : Pet) (dt : ℚ) : Pet :=
  if s.message_timer > 0 then { s with message_timer := s.message_timer - dt } else s

/-- First block of `_process_movement_detection`: the `is_picked_up`
edge-triggered reward. -/
def pickupCheck (s : Pet) (snap : Snap) (now : ℚ) : Pet :=
  if snap.isPickedUp then
    if s.pickupShown then s
    else
      { s with message := Msg.pickedUp
               message_timer := 2
               happiness := min 100 (s.happiness + 5)
               social := min 100 (s.social + 3)
               last_interaction := now
               pickupShown := true
               pickupFires := s.pickupFires + 1
               sounds := (800, 1/5) :: s.sounds }
  else { s with pickupShown := false }

/-- Second block of `_process_movement_detection`: the `shake_detected`
edge-triggered reward (the accompanying random servo move touches no pet
state and is modelled with the servo actuator below). -/
def shakeCheck (s : Pet) (snap : Snap) (now : ℚ) : Pet :=
  if snap.shakeDetected then
    if s.shakeShown then s
    else
      { s with message := Msg.shakeMore
               message_timer := 2
               happiness := min 100 (s.happiness + 8)
               energy := max 0 (s.energy - 5)
               emotion := EmotionState.playful
               last_interaction := now
               shakeShown := true
               sounds := (1000, 1/10) :: s.sounds }
  else { s with shakeShown := false }

/-- Third block of `_process_movement_detection`: idle / neglect. -/
def idleCheck (s : Pet) (snap : Snap) (now : ℚ) : Pet :=
  if now - snap.lastMovement > idle_timeout ∧ s.sleep_mode = false then
    if now - snap.lastMovement > neglect_timeout then
      { s with emotion := EmotionState.sad
               message := Msg.lonely
               message_timer := 3
               social := max 0 (s.social - 1) }
    else { s with emotion := EmotionState.sleepy }
  else s

def processMovement (s : Pet) (snap : Snap) (now : ℚ) : Pet :=
  idleCheck (shakeCheck (pickupCheck s snap now) snap now) snap now

/-- `HardwareManager.get_environment_state()`. -/
def envStateOf (simulation : Bool) (light : ℚ) (simTime : EnvironmentState) :
    EnvironmentState :=
  if simulation = false then
    if light > 600 then EnvironmentState.day
    else if light > 200 then EnvironmentState.dusk
    else if light > 50 then EnvironmentState.dawn
    else EnvironmentState.night
  else simTime

/-- `HardwareManager.get_season()`. -/
def seasonOf (simulation : Bool) (temp : ℚ) (simSeason : Season) : Season :=
  if simulation = false then
    if temp > 25 then Season.summer
    else if temp > 15 then Season.spring
    else if temp > 5 then Season.autumn
    else Season.winter
  else simSeason

/-- Temperature-comfort block of `_process_environmental_conditions`. -/
def tempComfort (s : Pet) (snap : Snap) : Pet :=
  if snap.temperature < preferred_temp_min then
    if snap.temperature < 10 then
      { s with comfort := max 0 (s.comfort - 1/2)
               emotion := EmotionState.cold
               message := Msg.brrCold
               message_timer := 2 }
    else { s with comfort := max 0 (s.comfort - 1/2) }
  else if snap.temperature > preferred_temp_max then
    if snap.temperature > 30 then
      { s with comfort := max 0 (s.comfort - 1/2)
               emotion := EmotionState.hot
               message := Msg.tooHot
               message_timer := 2 }
    else { s with comfort := max 0 (s.comfort - 1/2) }
  else { s with comfort := min 100 (s.comfort + 1/5) }

/-- Night auto-sleep / day auto-wake block of
`_process_environmental_conditions`. -/
def nightDay (s : Pet) (snap : Snap) : Pet :=
  let env := envStateOf snap.simulation snap.light snap.simTime
  if env = EnvironmentState.night ∧ s.sleep_mode = false then
    if s.energy < 50 then
      { s with sleep_mode := true
               message := Msg.darkTired
               message_timer := 3
               emotion := EmotionState.sleepy }
    else s
  else if env = EnvironmentState.day ∧ s.sleep_mode = true then
    { s with sleep_mode := false
             message := Msg.goodMorning
             message_timer := 3
             energy := min 100 (s.energy + 20)
             emotion := EmotionState.happy }
  else s

/-- Loud-sound block of `_process_environmental_conditions`. -/
def loudNoise (s : Pet) (snap : Snap) : Pet :=
  if snap.sound > 80 then
    { s with emotion := EmotionState.scared
             message := Msg.loudScared
             message_timer := 2
             happiness := max 0 (s.happiness - 5) }
  else s

def processEnvironment (s : Pet) (snap : Snap) : Pet :=
  loudNoise (nightDay (tempComfort s snap) snap) snap

/-- Hunger block of `_process_time_based_needs`. -/
def hungerNeed (s : Pet) (now dt : ℚ) : Pet :=
  if now - s.last_fed > 1800 then { s with hunger := max 0 (s.hunger - 10 * dt) }
  else s

/-- Energy block of `_process_time_based_needs`. -/
def energyNeed (s : Pet) (dt : ℚ) : Pet :=
  if s.sleep_mode then { s with energy := min 100 (s.energy + 5 * dt) }
  else { s with energy := max 0 (s.energy - 2 * dt) }

/-- Health block of `_process_time_based_needs`. -/
def healthNeed (s : Pet) (dt : ℚ) : Pet :=
  let avg := (s.happiness + s.hunger + s.energy + s.comfort) / 4
  if avg < 30 then { s with health := max 0 (s.health - 1 * dt) }
  else if avg > 70 then { s with health := min 100 (s.health + dt / 2) }
  else s

def processTimeNeeds (s : Pet) (now dt : ℚ) : Pet :=
  healthNeed (energyNeed (hungerNeed s now dt) dt) dt

/-- The priority chain of `_update_emotion_from_sensors`. -/
def resolveEmotion (sleep : Bool) (health hunger comfort happiness energy social temp : ℚ) :
    EmotionState :=
  if sleep then EmotionState.sleepy
  else if health < 30 then EmotionState.sad
  else if hunger < 20 then EmotionState.angry
  else if comfort < 30 then
    (if temp < preferred_temp_min then EmotionState.cold else EmotionState.hot)
  else if happiness > 80 ∧ energy > 70 then EmotionState.excited
  else if social < 30 then EmotionState.sad
  else EmotionState.happy

def updateEmotion (s : Pet) (snap : Snap) : Pet :=
  { s with emotion := resolveEmotion s.sleep_mode s.health s.hunger s.comfort
                        s.happiness s.energy s.social snap.temperature }

/-- `_decay_stats`. -/
def decayStats (s : Pet) (dt : ℚ) : Pet :=
  if s.sleep_mode = false then
    { s with happiness := max 0 (s.happiness - (3/10) * dt)
             social := max 0 (s.social - (1/5) * dt) }
  else s

/-- `SmartTamagotchi.update(dt)` at time `now`, against a sensor snapshot. -/
def update (s : Pet) (snap : Snap) (now dt : ℚ) : Pet :=
  decayStats
    (updateEmotion
      (processTimeNeeds
        (processEnvironment (processMovement (tickMessageTimer s dt) snap now) snap)
        now dt)
      snap)
    dt

/-! ## Servo actuator (`src/hardware/servo_motor.py`) -/

/-- `ServoMotor`: `hasServo` is true when a physical driver handle was
successfully constructed (`self.servo` non-None); `servo_angle` is the
angle last written to the physical servo, `sim_angle` the simulated
record. -/
structure ServoMotor where
  hasServo : Bool
  servo_angle : ℚ
  sim_angle : ℚ
  deriving DecidableEq, Repr

/-- `ServoMotor.move(angle)`. -/
def ServoMotor.move (m : ServoMotor) (angle : ℚ) : ServoMotor :=
  if m.hasServo then { m with servo_angle := max 0 (min 180 angle) }
  else { m with sim_angle := angle }

/-- The angle the servo ends up at (physical target in real mode, the
recorded `sim_angle` otherwise). -/
def ServoMotor.effectiveAngle (m : ServoMotor) : ℚ :=
  if m.hasServo then m.servo_angle else m.sim_angle

/-- `HardwareManager.move_servo(angle)`: a passthrough to `ServoMotor.move`. -/
def move_servo (m : ServoMotor) (angle : ℚ) : ServoMotor :=
  ServoMotor.move m angle

/-! ## Simulated sensor ports and the sampling tick
(`src/hardware/hardware_manager.py`, `light_sensor.py`,
`temperature_sensor.py`, `sound_sensor.py`) -/

/-- A scalar sensor port: `hasDriver` is true when a physical driver was
constructed, `simValue` is the port's *own* in-memory fallback value. -/
structure SimSensor where
  hasDriver : Bool
  driverValue : ℚ
  simValue : ℚ
  deriving DecidableEq, Repr

/-- `read()` of a scalar sensor port. -/
def SimSensor.read (p : SimSensor) : ℚ :=
  if p.hasDriver then p.driverValue else p.simValue

/-- `LightSensor(simulation=...)` as constructed by
`HardwareManager.__init__`: no i2c handle is passed, so `self.sensor` is
`None` and reads return the port's own `sim_light_level = 500`. -/
def mkLightSensor : SimSensor := ⟨false, 0, 500⟩

/-- `TemperatureSensor(...)` from `HardwareManager.__init__`
(own `sim_temperature = 22.0`). -/
def mkTempSensor : SimSensor := ⟨false, 0, 22⟩

/-- `SoundSensor(...)` from `HardwareManager.__init__`
(own `sim_sound_level = 30`). -/
def mkSoundSensor : SimSensor := ⟨false, 0, 30⟩

/-- The `HardwareManager` state relevant to the simulation knobs and the
scalar snapshot fields: the manager's own `sim_*` knob attributes, the
sensor port objects, and the `sensor_data` scalar fields. -/
structure HWState where
  simulation : Bool
  sim_light_level : ℚ
  sim_temperature : ℚ
  sim_sound_level : ℚ
  lightSensor : SimSensor
  tempSensor : SimSensor
  soundSensor : SimSensor
  sensor_light : ℚ
  sensor_temperature : ℚ
  sensor_sound : ℚ
  deriving DecidableEq, Repr

/-- `HardwareManager.__init__(simulation)`: knobs at 500 / 22.0 / 30, the
snapshot seeded from the knobs, sensor ports constructed without
handles. -/
def initHW (simulation : Bool) : HWState :=
  { simulation := simulation
    sim_light_level := 500, sim_temperature := 22, sim_sound_level := 30
    lightSensor := mkLightSensor, tempSensor := mkTempSensor
    soundSensor := mkSoundSensor
    sensor_light := 500, sensor_temperature := 22, sensor_sound := 30 }

/-- The scalar-overwriting part of `_read_sensors` — what one sampling
tick does to the snapshot's light/temperature/sound fields. -/
def readSensorsTick (hw : HWState) : HWState :=
  { hw with sensor_light := hw.lightSensor.read
            sensor_temperature := hw.tempSensor.read
            sensor_sound := hw.soundSensor.read }

/-! ## Clamp helper lemmas -/

theorem min100_le_top (y : ℚ) : min 100 y ≤ 100 := min_le_left _ _

theorem zero_le_min100 {y : ℚ} (h : 0 ≤ y) : 0 ≤ min 100 y :=
  le_min (by norm_num) h

theorem zero_le_max0 (y : ℚ) : 0 ≤ max 0 y := le_max_left _ _

theorem max0_le_top {y : ℚ} (h : y ≤ 100) : max 0 y ≤ 100 :=
  max_le (by norm_num) h

/-! ## The stat-bounds invariant -/

/-- All six stats lie in `[0,100]`. -/
def StatsInv (s : Pet) : Prop :=
  0 ≤ s.happiness ∧ s.happiness ≤ 100 ∧
  0 ≤ s.energy ∧ s.energy ≤ 100 ∧
  0 ≤ s.hunger ∧ s.hunger ≤ 100 ∧
  0 ≤ s.health ∧ s.health ≤ 100 ∧
  0 ≤ s.comfort ∧ s.comfort ≤ 100 ∧
  0 ≤ s.social ∧ s.social ≤ 100

instance (s : Pet) : Decidable (StatsInv s) := by unfold StatsInv; infer_instance

theorem feed_inv {s : Pet} (now : ℚ) (h : StatsInv s) : StatsInv (feed s now) := by
  obtain ⟨h1, h2, h3, h4, h5, h6, h7, h8, h9, h10, h11, h12⟩ := h
  unfold feed StatsInv
  exact ⟨zero_le_min100 (by linarith), min100_le_top _, h3, h4,
         zero_le_min100 (by linarith), min100_le_top _,
         zero_le_min100 (by linarith), min100_le_top _, h9, h10, h11, h12⟩

theorem pet_inv {s : Pet} (now : ℚ) (h : StatsInv s) : StatsInv (pet s now) := by
  obtain ⟨h1, h2, h3, h4, h5, h6, h7, h8, h9, h10, h11, h12⟩ := h
  unfold pet StatsInv
  exact ⟨zero_le_min100 (by linarith), min100_le_top _, h3, h4, h5, h6, h7, h8,
         zero_le_min100 (by linarith), min100_le_top _,
         zero_le_min100 (by linarith), min100_le_top _⟩

theorem play_inv {s : Pet} (now : ℚ) (h : StatsInv s) : StatsInv (play s now) := by
  obtain ⟨h1, h2, h3, h4, h5, h6, h7, h8, h9, h10, h11, h12⟩ := h
  unfold play StatsInv
  exact ⟨zero_le_min100 (by linarith), min100_le_top _,
         zero_le_max0 _, max0_le_top (by linarith), h5, h6, h7, h8, h9, h10,
         zero_le_min100 (by linarith), min100_le_top _⟩

theorem put_to_sleep_inv {s : Pet} (now : ℚ) (h : StatsInv s) :
    StatsInv (put_to_sleep s now) := by
  obtain ⟨h1, h2, h3, h4, h5, h6, h7, h8, h9, h10, h11, h12⟩ := h
  unfold put_to_sleep StatsInv
  exact ⟨h1, h2, zero_le_min100 (by linarith), min100_le_top _,
         h5, h6, h7, h8, h9, h10, h11, h12⟩

theorem wake_up_inv {s : Pet} (now : ℚ) (h : StatsInv s) : StatsInv (wake_up s now) := by
  obtain ⟨h1, h2, h3, h4, h5, h6, h7, h8, h9, h10, h11, h12⟩ := h
  unfold wake_up StatsInv
  split_ifs
  · exact ⟨zero_le_min100 (by linarith), min100_le_top _,
           zero_le_min100 (by linarith), min100_le_top _,
           h5, h6, h7, h8, h9, h10, h11, h12⟩
  · exact ⟨h1, h2, h3, h4, h5, h6, h7, h8, h9, h10, h11, h12⟩

theorem tickMessageTimer_inv {s : Pet} (dt : ℚ) (h : StatsInv s) :
    StatsInv (tickMessageTimer s dt) := by
  unfold tickMessageTimer
  split_ifs <;> exact h

theorem pickupCheck_inv {s : Pet} (snap : Snap) (now : ℚ) (h : StatsInv s) :
    StatsInv (pickupCheck s snap now) := by
  obtain ⟨h1, h2, h3, h4, h5, h6, h7, h8, h9, h10, h11, h12⟩ := h
  unfold pickupCheck StatsInv
  split_ifs
  · exact ⟨h1, h2, h3, h4, h5, h6, h7, h8, h9, h10, h11, h12⟩
  · exact ⟨zero_le_min100 (by linarith), min100_le_top _, h3, h4, h5, h6, h7, h8, h9, h10,
           zero_le_min100 (by linarith), min100_le_top _⟩
  · exact ⟨h1, h2, h3, h4, h5, h6, h7, h8, h9, h10, h11, h12⟩

theorem shakeCheck_inv {s : Pet} (snap : Snap) (now : ℚ) (h : StatsInv s) :
    StatsInv (shakeCheck s snap now) := by
  obtain ⟨h1, h2, h3, h4, h5, h6, h7, h8, h9, h10, h11, h12⟩ := h
  unfold shakeCheck StatsInv
  split_ifs
  · exact ⟨h1, h2, h3, h4, h5, h6, h7, h8, h9, h10, h11, h12⟩
  · exact ⟨zero_le_min100 (by linarith), min100_le_top _,
           zero_le_max0 _, max0_le_top (by linarith), h5, h6, h7, h8, h9, h10, h11, h12⟩
  · exact ⟨h1, h2, h3, h4, h5, h6, h7, h8, h9, h10, h11, h12⟩

theorem idleCheck_inv {s : Pet} (snap : Snap) (now : ℚ) (h : StatsInv s) :
    StatsInv (idleCheck s snap now) := by
  obtain ⟨h1, h2, h3, h4, h5, h6, h7, h8, h9, h10, h11, h12⟩ := h
  unfold idleCheck StatsInv
  split_ifs
  · exact ⟨h1, h2, h3, h4, h5, h6, h7, h8, h9, h10,
           zero_le_max0 _, max0_le_top (by linarith)⟩
  · exact ⟨h1, h2, h3, h4, h5, h6, h7, h8, h9, h10, h11, h12⟩
  · exact ⟨h1, h2, h3, h4, h5, h6, h7, h8, h9, h10, h11, h12⟩

theorem processMovement_inv {s : Pet} (snap : Snap) (now : ℚ) (h : StatsInv s) :
    StatsInv (processMovement s snap now) :=
  idleCheck_inv snap now (shakeCheck_inv snap now (pickupCheck_inv snap now h))

theorem tempComfort_inv {s : Pet} (snap : Snap) (h : StatsInv s) :
    StatsInv (tempComfort s snap) := by
  obtain ⟨h1, h2, h3, h4, h5, h6, h7, h8, h9, h10, h11, h12⟩ := h
  unfold tempComfort StatsInv
  split_ifs
  · exact ⟨h1, h2, h3, h4, h5, h6, h7, h8,
           zero_le_max0 _, max0_le_top (by linarith), h11, h12⟩
  · exact ⟨h1, h2, h3, h4, h5, h6, h7, h8,
           zero_le_max0 _, max0_le_top (by linarith), h11, h12⟩
  · exact ⟨h1, h2, h3, h4, h5, h6, h7, h8,
           zero_le_max0 _, max0_le_top (by linarith), h11, h12⟩
  · exact ⟨h1, h2, h3, h4, h5, h6, h7, h8,
           zero_le_max0 _, max0_le_top (by linarith), h11, h12⟩
  · exact ⟨h1, h2, h3, h4, h5, h6, h7, h8,
           zero_le_min100 (by linarith), min100_le_top _, h11, h12⟩

theorem nightDay_inv {s : Pet} (snap : Snap) (h : StatsInv s) :
    StatsInv (nightDay s snap) := by
  obtain ⟨h1, h2, h3, h4, h5, h6, h7, h8, h9, h10, h11, h12⟩ := h
  unfold nightDay
  dsimp only
  split_ifs
  · exact ⟨h1, h2, h3, h4, h5, h6, h7, h8, h9, h10, h11, h12⟩
  · exact ⟨h1, h2, h3, h4, h5, h6, h7, h8, h9, h10, h11, h12⟩
  · exact ⟨h1, h2, zero_le_min100 (by linarith), min100_le_top _,
           h5, h6, h7, h8, h9, h10, h11, h12⟩
  · exact ⟨h1, h2, h3, h4, h5, h6, h7, h8, h9, h10, h11, h12⟩

theorem loudNoise_inv {s : Pet} (snap : Snap) (h : StatsInv s) :
    StatsInv (loudNoise s snap) := by
  obtain ⟨h1, h2, h3, h4, h5, h6, h7, h8, h9, h10, h11, h12⟩ := h
  unfold loudNoise StatsInv
  split_ifs
  · exact ⟨zero_le_max0 _, max0_le_top (by linarith),
           h3, h4, h5, h6, h7, h8, h9, h10, h11, h12⟩
  · exact ⟨h1, h2, h3, h4, h5, h6, h7, h8, h9, h10, h11, h12⟩

theorem processEnvironment_inv {s : Pet} (snap : Snap) (h : StatsInv s) :
    StatsInv (processEnvironment s snap) :=
  loudNoise_inv snap (nightDay_inv snap (tempComfort_inv snap h))

theorem hungerNeed_inv {s : Pet} {dt : ℚ} (now : ℚ) (hdt : 0 ≤ dt) (h : StatsInv s) :
    StatsInv (hungerNeed s now dt) := by
  obtain ⟨h1, h2, h3, h4, h5, h6, h7, h8, h9, h10, h11, h12⟩ := h
  unfold hungerNeed StatsInv
  split_ifs
  · exact ⟨h1, h2, h3, h4, zero_le_max0 _, max0_le_top (by linarith),
           h7, h8, h9, h10, h11, h12⟩
  · exact ⟨h1, h2, h3, h4, h5, h6, h7, h8, h9, h10, h11, h12⟩

theorem energyNeed_inv {s : Pet} {dt : ℚ} (hdt : 0 ≤ dt) (h : StatsInv s) :
    StatsInv (energyNeed s dt) := by
  obtain ⟨h1, h2, h3, h4, h5, h6, h7, h8, h9, h10, h11, h12⟩ := h
  unfold energyNeed StatsInv
  split_ifs
  · exact ⟨h1, h2, zero_le_min100 (by linarith), min100_le_top _,
           h5, h6, h7, h8, h9, h10, h11, h12⟩
  · exact ⟨h1, h2, zero_le_max0 _, max0_le_top (by linarith),
           h5, h6, h7, h8, h9, h10, h11, h12⟩

theorem healthNeed_inv {s : Pet} {dt : ℚ} (hdt : 0 ≤ dt) (h : StatsInv s) :
    StatsInv (healthNeed s dt) := by
  obtain ⟨h1, h2, h3, h4, h5, h6, h7, h8, h9, h10, h11, h12⟩ := h
  unfold healthNeed
  dsimp only
  split_ifs
  · exact ⟨h1, h2, h3, h4, h5, h6, zero_le_max0 _, max0_le_top (by linarith),
           h9, h10, h11, h12⟩
  · exact ⟨h1, h2, h3, h4, h5, h6, zero_le_min100 (by linarith), min100_le_top _,
           h9, h10, h11, h12⟩
  · exact ⟨h1, h2, h3, h4, h5, h6, h7, h8, h9, h10, h11, h12⟩

theorem processTimeNeeds_inv {s : Pet} {dt : ℚ} (now : ℚ) (hdt : 0 ≤ dt) (h : StatsInv s) :
    StatsInv (processTimeNeeds s now dt) :=
  healthNeed_inv hdt (energyNeed_inv hdt (hungerNeed_inv now hdt h))

theorem updateEmotion_inv {s : Pet} (snap : Snap) (h : StatsInv s) :
    StatsInv (updateEmotion s snap) := h

theorem decayStats_inv {s : Pet} {dt : ℚ} (hdt : 0 ≤ dt) (h : StatsInv s) :
    StatsInv (decayStats s dt) := by
  obtain ⟨h1, h2, h3, h4, h5, h6, h7, h8, h9, h10, h11, h12⟩ := h
  unfold decayStats StatsInv
  split_ifs
  · exact ⟨zero_le_max0 _, max0_le_top (by linarith), h3, h4, h5, h6, h7, h8, h9, h10,
           zero_le_max0 _, max0_le_top (by linarith)⟩
  · exact ⟨h1, h2, h3, h4, h5, h6, h7, h8, h9, h10, h11, h12⟩

theorem update_inv {s : Pet} {dt : ℚ} (snap : Snap) (now : ℚ) (hdt : 0 ≤ dt)
    (h : StatsInv s) : StatsInv (update s snap now dt) :=
  decayStats_inv hdt
    (updateEmotion_inv snap
      (processTimeNeeds_inv now hdt
        (processEnvironment_inv snap
          (processMovement_inv snap now (tickMessageTimer_inv dt h)))))

/-! ## Arbitrary interleavings of interactions and updates -/

/-- One call against the pet engine's public mutating surface. -/
inductive Op where
  | feed (now : ℚ)
  | pet (now : ℚ)
  | play (now : ℚ)
  | sleep (now : ℚ)
  | wake (now : ℚ)
  | upd (snap : Snap) (now : ℚ) (dt : ℚ)
  deriving DecidableEq, Repr

def applyOp (s : Pet) : Op → Pet
  | Op.feed now => feed s now
  | Op.pet now => pet s now
  | Op.play now => play s now
  | Op.sleep now => put_to_sleep s now
  | Op.wake now => wake_up s now
  | Op.upd snap now dt => update s snap now dt

/-- The only precondition a call carries: `update` needs `0 ≤ dt`. -/
def dtOk : Op → Bool
  | Op.upd _ _ dt => decide (0 ≤ dt)
  | _ => true

def run (s : Pet) (ops : List Op) : Pet := ops.foldl applyOp s

theorem applyOp_inv {s : Pet} {o : Op} (ho : dtOk o = true) (h : StatsInv s) :
    StatsInv (applyOp s o) := by
  cases o with
  | feed now => exact feed_inv now h
  | pet now => exact pet_inv now h
  | play now => exact play_inv now h
  | sleep now => exact put_to_sleep_inv now h
  | wake now => exact wake_up_inv now h
  | upd snap now dt =>
      exact update_inv snap now (by simpa [dtOk] using ho) h

theorem run_inv {s : Pet} {ops : List Op} (ho : ∀ o ∈ ops, dtOk o = true)
    (h : StatsInv s) : StatsInv (run s ops) := by
  induction ops generalizing s with
  | nil => exact h
  | cons o rest ih =>
      exact ih (fun x hx => ho x (List.mem_cons_of_mem o hx))
        (applyOp_inv (ho o (List.mem_cons_self o rest)) h)

theorem initPet_inv (t0 : ℚ) : StatsInv (initPet t0) := by
  unfold initPet StatsInv
  norm_num

/-! ## Ghost-field projections: the pickup edge-trigger state -/

theorem pickupCheck_pickupShown (s : Pet) (snap : Snap) (now : ℚ) :
    (pickupCheck s snap now).pickupShown = snap.isPickedUp := by
  unfold pickupCheck
  cases hp : snap.isPickedUp <;> cases hs : s.pickupShown <;> simp [hp, hs]

theorem pickupCheck_pickupFires (s : Pet) (snap : Snap) (now : ℚ) :
    (pickupCheck s snap now).pickupFires =
      s.pickupFires + (if snap.isPickedUp && !s.pickupShown then 1 else 0) := by
  unfold pickupCheck
  cases hp : snap.isPickedUp <;> cases hs : s.pickupShown <;> simp [hp, hs]

theorem tickMessageTimer_pickupShown (s : Pet) (dt : ℚ) :
    (tickMessageTimer s dt).pickupShown = s.pickupShown := by
  unfold tickMessageTimer; split_ifs <;> rfl

theorem tickMessageTimer_pickupFires (s : Pet) (dt : ℚ) :
    (tickMessageTimer s dt).pickupFires = s.pickupFires := by
  unfold tickMessageTimer; split_ifs <;> rfl

theorem shakeCheck_pickupShown (s : Pet) (snap : Snap) (now : ℚ) :
    (shakeCheck s snap now).pickupShown = s.pickupShown := by
  unfold shakeCheck; split_ifs <;> rfl

theorem shakeCheck_pickupFires (s : Pet) (snap : Snap) (now : ℚ) :
    (shakeCheck s snap now).pickupFires = s.pickupFires := by
  unfold shakeCheck; split_ifs <;> rfl

theorem idleCheck_pickupShown (s : Pet) (snap : Snap) (now : ℚ) :
    (idleCheck s snap now).pickupShown = s.pickupShown := by
  unfold idleCheck; split_ifs <;> rfl

theorem idleCheck_pickupFires (s : Pet) (snap : Snap) (now : ℚ) :
    (idleCheck s snap now).pickupFires = s.pickupFires := by
  unfold idleCheck; split_ifs <;> rfl

theorem tempComfort_pickupShown (s : Pet) (snap : Snap) :
    (tempComfort s snap).pickupShown = s.pickupShown := by
  unfold tempComfort; split_ifs <;> rfl

theorem tempComfort_pickupFires (s : Pet) (snap : Snap) :
    (tempComfort s snap).pickupFires = s.pickupFires := by
  unfold tempComfort; split_ifs <;> rfl

theorem nightDay_pickupShown (s : Pet) (snap : Snap) :
    (nightDay s snap).pickupShown = s.pickupShown := by
  unfold nightDay; dsimp only; split_ifs <;> rfl

theorem nightDay_pickupFires (s : Pet) (snap : Snap) :
    (nightDay s snap).pickupFires = s.pickupFires := by
  unfold nightDay; dsimp only; split_ifs <;> rfl

theorem loudNoise_pickupShown (s : Pet) (snap : Snap) :
    (loudNoise s snap).pickupShown = s.pickupShown := by
  unfold loudNoise; split_ifs <;> rfl

theorem loudNoise_pickupFires (s : Pet) (snap : Snap) :
    (loudNoise s snap).pickupFires = s.pickupFires := by
  unfold loudNoise; split_ifs <;> rfl

theorem processTimeNeeds_pickupShown (s : Pet) (now dt : ℚ) :
    (processTimeNeeds s now dt).pickupShown = s.pickupShown := by
  unfold processTimeNeeds healthNeed energyNeed hungerNeed
  dsimp only; split_ifs <;> rfl

theorem processTimeNeeds_pickupFires (s : Pet) (now dt : ℚ) :
    (processTimeNeeds s now dt).pickupFires = s.pickupFires := by
  unfold processTimeNeeds healthNeed energyNeed hungerNeed
  dsimp only; split_ifs <;> rfl

theorem updateEmotion_pickupShown (s : Pet) (snap : Snap) :
    (updateEmotion s snap).pickupShown = s.pickupShown := rfl

theorem updateEmotion_pickupFires (s : Pet) (snap : Snap) :
    (updateEmotion s snap).pickupFires = s.pickupFires := rfl

theorem decayStats_pickupShown (s : Pet) (dt : ℚ) :
    (decayStats s dt).pickupShown = s.pickupShown := by
  unfold decayStats; split_ifs <;> rfl

theorem decayStats_pickupFires (s : Pet) (dt : ℚ) :
    (decayStats s dt).pickupFires = s.pickupFires := by
  unfold decayStats; split_ifs <;> rfl

/-- After one `update`, the pickup "shown" flag mirrors the snapshot's
`is_picked_up`. -/
theorem update_pickupShown (s : Pet) (snap : Snap) (now dt : ℚ) :
    (update s snap now dt).pickupShown = snap.isPickedUp := by
  unfold update processMovement
  rw [decayStats_pickupShown, updateEmotion_pickupShown, processTimeNeeds_pickupShown,
      processEnvironment, loudNoise_pickupShown, nightDay_pickupShown,
      tempComfort_pickupShown, idleCheck_pickupShown, shakeCheck_pickupShown,
      pickupCheck_pickupShown]

/-- One `update` fires the pickup reward exactly when `is_picked_up` is
true and the flag was not already set. -/
theorem update_pickupFires (s : Pet) (snap : Snap) (now dt : ℚ) :
    (update s snap now dt).pickupFires =
      s.pickupFires + (if snap.isPickedUp && !s.pickupShown then 1 else 0) := by
  unfold update processMovement
  rw [decayStats_pickupFires, updateEmotion_pickupFires, processTimeNeeds_pickupFires,
      processEnvironment, loudNoise_pickupFires, nightDay_pickupFires,
      tempComfort_pickupFires, idleCheck_pickupFires, shakeCheck_pickupFires,
      pickupCheck_pickupFires, tickMessageTimer_pickupShown, tickMessageTimer_pickupFires]

/-- A run of `update` ticks: each element carries the snapshot, `now` and
`dt` of one tick. -/
def runUpdates (s : Pet) (ticks : List (Snap × ℚ × ℚ)) : Pet :=
  ticks.foldl (fun x t => update x t.1 t.2.1 t.2.2) s

/-- Number of false→true transitions in a boolean trace, given the level
seen before the trace started. -/
def countRising (prev : Bool) : List Bool → ℕ
  | [] => 0
  | b :: bs => (if b && !prev then 1 else 0) + countRising b bs

theorem runUpdates_pickupFires (s : Pet) (ticks : List (Snap × ℚ × ℚ)) :
    (runUpdates s ticks).pickupFires =
      s.pickupFires + countRising s.pickupShown (ticks.map fun t => t.1.isPickedUp) := by
  induction ticks generalizing s with
  | nil => simp [runUpdates, countRising]
  | cons t rest ih =>
      have hrun : runUpdates s (t :: rest) = runUpdates (update s t.1 t.2.1 t.2.2) rest := rfl
      rw [hrun, ih, update_pickupFires, update_pickupShown, List.map_cons, countRising,
          Nat.add_assoc]

theorem countRising_true_replicate (n : ℕ) :
    countRising true (List.replicate n true) = 0 := by
  induction n with
  | zero => rfl
  | succ k ih => simpa [List.replicate, countRising] using ih

theorem countRising_true_replicate_append (n : ℕ) (l : List Bool) :
    countRising true (List.replicate n true ++ l) = countRising true l := by
  induction n with
  | zero => rfl
  | succ k ih => simpa [List.replicate, countRising] using ih

/-! ## Emotion-resolution helpers -/

theorem decayStats_emotion (s : Pet) (dt : ℚ) :
    (decayStats s dt).emotion = s.emotion := by
  unfold decayStats; split_ifs <;> rfl

/-- The emotion delivered by `update` is the priority resolver applied to
the state after the movement / environment / time-needs phases. -/
theorem update_emotion_eq (s : Pet) (snap : Snap) (now dt : ℚ) :
    (update s snap now dt).emotion =
      (fun m => resolveEmotion m.sleep_mode m.health m.hunger m.comfort
          m.happiness m.energy m.social snap.temperature)
        (processTimeNeeds
          (processEnvironment (processMovement (tickMessageTimer s dt) snap now) snap)
          now dt) := by
  unfold update
  rw [decayStats_emotion]
  rfl

/-- The emotion priority chain as the spec words it, for refinement
comparison with the source-derived `resolveEmotion`: sleep_mode→SLEEPY;
health<30→SAD; hunger<20→ANGRY; comfort<30→COLD/HOT by
temperature-vs-18; happiness>80 AND energy>70→EXCITED; social<30→SAD;
else HAPPY. -/
def specEmotion (sleep : Bool) (health hunger comfort happiness energy social temp : ℚ) :
    EmotionState :=
  if sleep then EmotionState.sleepy
  else if health < 30 then EmotionState.sad
  else if hunger < 20 then EmotionState.angry
  else if comfort < 30 then
    (if temp < 18 then EmotionState.cold else EmotionState.hot)
  else if happiness > 80 ∧ energy > 70 then EmotionState.excited
  else if social < 30 then EmotionState.sad
  else EmotionState.happy

/-! ## Claim theorems -/

/-- C1: Emotion resolution is the strict first-match priority chain of the
spec (sleep→SLEEPY; health<30→SAD; hunger<20→ANGRY; comfort<30→COLD/HOT
by temperature vs the preferred minimum 18; happiness>80∧energy>70→
EXCITED; social<30→SAD; else HAPPY); in particular with health=10 and
hunger=5 (sleep off) it yields SAD, never ANGRY; and `update` assigns
exactly this resolver's output (computed after the movement, environment
and time-needs phases). -/
theorem emotion_priority_c1 :
    (∀ (sl : Bool) (h hu c ha e so t : ℚ),
        resolveEmotion sl h hu c ha e so t = specEmotion sl h hu c ha e so t) ∧
    (∀ (c ha e so t : ℚ),
        resolveEmotion false 10 5 c ha e so t = EmotionState.sad) ∧
    (∀ (s : Pet) (snap : Snap) (now dt : ℚ),
        (update s snap now dt).emotion =
          (fun m => resolveEmotion m.sleep_mode m.health m.hunger m.comfort
              m.happiness m.energy m.social snap.temperature)
            (processTimeNeeds
              (processEnvironment
                (processMovement (tickMessageTimer s dt) snap now) snap)
              now dt)) := by
  refine ⟨fun sl h hu c ha e so t => rfl, fun c ha e so t => ?_,
          fun s snap now dt => update_emotion_eq s snap now dt⟩
  norm_num [resolveEmotion]

/-- C2: starting from the initial stats (80/70/60/90/75/60), every
interleaving of `feed`/`pet`/`play`/`put_to_sleep`/`wake_up` and
`update(dt)` with `dt ≥ 0` keeps all six stats in `[0,100]`. -/
theorem clamp_invariant_c2 (t0 : ℚ) (ops : List Op)
    (hops : ∀ o ∈ ops, dtOk o = true) : StatsInv (run (initPet t0) ops) :=
  run_inv hops (initPet_inv t0)

def snapDemo : Snap :=
  { light := 500, temperature := 22, sound := 30, lastMovement := 0
    isPickedUp := false, shakeDetected := false
    simulation := false, simTime := EnvironmentState.day }

def opsDemo : List Op :=
  [Op.feed 1, Op.pet 2, Op.play 3, Op.sleep 4, Op.wake 5, Op.upd snapDemo 6 1]

/-- Witness for C2 at a concrete op sequence. -/
theorem clamp_invariant_c2_witness :
    (∀ o ∈ opsDemo, dtOk o = true) ∧ StatsInv (run (initPet 0) opsDemo) :=
  ⟨by decide, clamp_invariant_c2 0 opsDemo (by decide)⟩

/-- C3 counterexample: `play()` does NOT subtract 10 from hunger — on the
initial pet (hunger 60) it leaves hunger at 60, not 50. -/
theorem play_hunger_c3_counterexample :
    (play (initPet 0) 5).hunger = 60 ∧ (initPet 0).hunger - 10 = 50 ∧
    (60 : ℚ) ≠ 50 := by
  refine ⟨rfl, by norm_num [initPet], by norm_num⟩

/-- C5: environment and season classification use strict greater-than
thresholds (non-simulation mode), with the boundary values of the spec. -/
theorem env_season_thresholds_c5 :
    (∀ (light : ℚ) (st : EnvironmentState),
       (envStateOf false light st = EnvironmentState.day ↔ 600 < light) ∧
       (envStateOf false light st = EnvironmentState.dusk ↔ 200 < light ∧ light ≤ 600) ∧
       (envStateOf false light st = EnvironmentState.dawn ↔ 50 < light ∧ light ≤ 200) ∧
       (envStateOf false light st = EnvironmentState.night ↔ light ≤ 50)) ∧
    (∀ st, envStateOf false 600 st = EnvironmentState.dusk) ∧
    (∀ st, envStateOf false 601 st = EnvironmentState.day) ∧
    (∀ st, envStateOf false 0 st = EnvironmentState.night) ∧
    (∀ (temp : ℚ) (ss : Season),
       (seasonOf false temp ss = Season.summer ↔ 25 < temp) ∧
       (seasonOf false temp ss = Season.spring ↔ 15 < temp ∧ temp ≤ 25) ∧
       (seasonOf false temp ss = Season.autumn ↔ 5 < temp ∧ temp ≤ 15) ∧
       (seasonOf false temp ss = Season.winter ↔ temp ≤ 5)) ∧
    (∀ ss, seasonOf false 25 ss = Season.spring) ∧
    (∀ ss, seasonOf false (2501/100) ss = Season.summer) ∧
    (∀ ss, seasonOf false 5 ss = Season.winter) ∧
    (∀ ss, seasonOf false (501/100) ss = Season.autumn) := by
  refine ⟨?_, ?_, ?_, ?_, ?_, ?_, ?_, ?_, ?_⟩
  · intro light st
    unfold envStateOf
    split_ifs with h0 h1 h2 h3 <;> simp_all <;>
      first
        | linarith
        | (intro hx; linarith)
        | (intro hx hy; linarith)
        | (constructor <;> first | linarith | (intro hx; linarith) | (intro hx hy; linarith))
  · intro st; norm_num [envStateOf]
  · intro st; norm_num [envStateOf]
  · intro st; norm_num [envStateOf]
  · intro temp ss
    unfold seasonOf
    split_ifs with h0 h1 h2 h3 <;> simp_all <;>
      first
        | linarith
        | (intro hx; linarith)
        | (intro hx hy; linarith)
        | (constructor <;> first | linarith | (intro hx; linarith) | (intro hx hy; linarith))
  · intro ss; norm_num [seasonOf]
  · intro ss; norm_num [seasonOf]
  · intro ss; norm_num [seasonOf]
  · intro ss; norm_num [seasonOf]

theorem countRising_false_replicate (n : ℕ) :
    countRising false (List.replicate (n + 1) true) = 1 := by
  simp [List.replicate_succ, countRising, countRising_true_replicate]

/-- C6: across any run of `update` ticks, the pickup reward fires exactly
at the false→true edges of `is_picked_up` (`countRising`): in particular
once — on the first tick — for a block of `n+1` consecutive true ticks,
and twice when the flag goes down and up again. -/
theorem pickup_edge_trigger_c6 :
    (∀ (s : Pet) (ticks : List (Snap × ℚ × ℚ)),
        (runUpdates s ticks).pickupFires =
          s.pickupFires + countRising s.pickupShown (ticks.map fun t => t.1.isPickedUp)) ∧
    (∀ n : ℕ, countRising false (List.replicate (n + 1) true) = 1) ∧
    (∀ n m : ℕ,
        countRising false
          (List.replicate (n + 1) true ++ false :: List.replicate (m + 1) true) = 2) := by
  refine ⟨runUpdates_pickupFires, countRising_false_replicate, ?_⟩
  intro n m
  have h1 : countRising false
        (List.replicate (n + 1) true ++ false :: List.replicate (m + 1) true)
      = 1 + countRising true (List.replicate n true ++ false :: List.replicate (m + 1) true) := by
    simp [List.replicate_succ, countRising]
  have h2 : countRising true (false :: List.replicate (m + 1) true)
      = countRising false (List.replicate (m + 1) true) := by
    simp [countRising]
  rw [h1, countRising_true_replicate_append, h2, countRising_false_replicate]

/-- C8: `wake_up` on an awake pet is a perfect no-op (every modelled field
unchanged, tone log included); on a sleeping pet it clears `sleep_mode`
and adds +10 energy and +5 happiness, clamped at 100. -/
theorem wake_up_guard_c8 :
    ∀ (s : Pet) (now : ℚ),
      (s.sleep_mode = false → wake_up s now = s) ∧
      (s.sleep_mode = true →
        (wake_up s now).sleep_mode = false ∧
        (wake_up s now).energy = min 100 (s.energy + 10) ∧
        (wake_up s now).happiness = min 100 (s.happiness + 5)) := by
  intro s now
  constructor
  · intro h; simp [wake_up, h]
  · intro h; simp [wake_up, h]

/-- Witness for C8: the initial pet is awake and `wake_up` leaves it
untouched; after `put_to_sleep`, `wake_up` clears the flag. -/
theorem wake_up_guard_c8_witness :
    wake_up (initPet 0) 3 = initPet 0 ∧
    (wake_up (put_to_sleep (initPet 0) 1) 2).sleep_mode = false :=
  ⟨(wake_up_guard_c8 (initPet 0) 3).1 rfl,
   ((wake_up_guard_c8 (put_to_sleep (initPet 0) 1) 2).2 rfl).1⟩

/-- C9 counterexample: in simulated mode (no servo driver), `move(200)`
records 200 unclamped — the effective angle leaves `[0,180]`. -/
theorem servo_clamp_c9_counterexample :
    (ServoMotor.move ⟨false, 90, 90⟩ 200).effectiveAngle = 200 ∧
    ¬ ((200 : ℚ) ≤ 180) := by
  refine ⟨rfl, by norm_num⟩

/-- C9 (amended): `move_servo` delegates to `ServoMotor.move`; with a real
servo driver the written angle is clamped into `[0,180]`; in simulated
mode the raw (unclamped) angle is recorded. -/
theorem servo_clamp_c9_amended :
    ∀ (m : ServoMotor) (angle : ℚ),
      move_servo m angle = ServoMotor.move m angle ∧
      (m.hasServo = true →
        0 ≤ (ServoMotor.move m angle).effectiveAngle ∧
        (ServoMotor.move m angle).effectiveAngle ≤ 180) ∧
      (m.hasServo = false → (ServoMotor.move m angle).effectiveAngle = angle) := by
  intro m angle
  refine ⟨rfl, ?_, ?_⟩
  · intro h
    unfold ServoMotor.move ServoMotor.effectiveAngle
    simp only [h, if_true]
    exact ⟨le_max_left _ _, max_le (by norm_num) (min_le_left _ _)⟩
  · intro h
    unfold ServoMotor.move ServoMotor.effectiveAngle
    simp [h]

/-- Witness for C9 (amended): real mode clamps 300 to 180; simulated mode
records 200 raw. -/
theorem servo_clamp_c9_amended_witness :
    (0 ≤ (ServoMotor.move ⟨true, 90, 90⟩ 300).effectiveAngle ∧
     (ServoMotor.move ⟨true, 90, 90⟩ 300).effectiveAngle ≤ 180) ∧
    (ServoMotor.move ⟨false, 90, 90⟩ 200).effectiveAngle = 200 :=
  ⟨(servo_clamp_c9_amended ⟨true, 90, 90⟩ 300).2.1 rfl,
   (servo_clamp_c9_amended ⟨false, 90, 90⟩ 200).2.2 rfl⟩

/-- C10: `put_to_sleep` is unguarded — on any state (asleep included) it
sets `sleep_mode`, adds +30 energy (clamped), stamps `last_interaction`,
resets the message and its TTL, sets SLEEPY and logs the tone; repeated
calls while asleep keep adding +30 energy (clamped) and re-log the tone. -/
theorem put_to_sleep_unguarded_c10 :
    ∀ (s : Pet) (now now2 : ℚ),
      put_to_sleep s now =
        { s with sleep_mode := true
                 energy := min 100 (s.energy + 30)
                 last_interaction := now
                 message := Msg.goodnight
                 message_timer := 3
                 emotion := EmotionState.sleepy
                 sounds := (400, 1/2) :: s.sounds } ∧
      (put_to_sleep (put_to_sleep s now) now2).energy
        = min 100 (min 100 (s.energy + 30) + 30) ∧
      (put_to_sleep (put_to_sleep s now) now2).sleep_mode = true ∧
      (put_to_sleep (put_to_sleep s now) now2).sounds
        = (400, 1/2) :: (400, 1/2) :: s.sounds :=
  fun s now now2 => ⟨rfl, rfl, rfl, rfl⟩

/-- C7 (code bug): with the `HardwareManager` knobs set to 1000 lux /
35 °C / 90 dB, the next sampling tick overwrites the snapshot from the
sensor ports' own fallback values (500 / 22 / 30), which are never
synced with the manager knobs — the knob values never reach the engine. -/
theorem sim_knobs_disconnected_c7 :
    (readSensorsTick
        { initHW false with
            sim_light_level := 1000, sim_temperature := 35,
            sim_sound_level := 90 }).sensor_light = 500 ∧
    (readSensorsTick
        { initHW false with
            sim_light_level := 1000, sim_temperature := 35,
            sim_sound_level := 90 }).sensor_temperature = 22 ∧
    (readSensorsTick
        { initHW false with
            sim_light_level := 1000, sim_temperature := 35,
            sim_sound_level := 90 }).sensor_sound = 30 ∧
    (readSensorsTick
        { initHW false with
            sim_light_level := 1000, sim_temperature := 35,
            sim_sound_level := 90 }).sim_light_level = 1000 ∧
    (500 : ℚ) ≠ 1000 :=
  ⟨rfl, rfl, rfl, rfl, by norm_num⟩

/-- C3 (amended): `feed` adds +10 happiness, +30 hunger and +5 health
(each clamped at 100) and stamps `last_fed`, so hunger afterwards equals
min(100, hunger+30); `play` adds +25 happiness and +20 social, subtracts
15 from energy (clamped at 0), leaves hunger unchanged, and sets emotion
to PLAYFUL. -/
theorem feed_play_deltas_c3_amended :
    ∀ (s : Pet) (now : ℚ),
      (feed s now).hunger = min 100 (s.hunger + 30) ∧
      (feed s now).happiness = min 100 (s.happiness + 10) ∧
      (feed s now).health = min 100 (s.health + 5) ∧
      (feed s now).last_fed = now ∧
      (play s now).happiness = min 100 (s.happiness + 25) ∧
      (play s now).social = min 100 (s.social + 20) ∧
      (play s now).energy = max 0 (s.energy - 15) ∧
      (play s now).hunger = s.hunger ∧
      (play s now).emotion = EmotionState.playful :=
  fun s now => ⟨rfl, rfl, rfl, rfl, rfl, rfl, rfl, rfl, rfl⟩

/-! ## Field-projection lemmas for the neglect scenario -/

theorem tickMessageTimer_message (s : Pet) (dt : ℚ) :
    (tickMessageTimer s dt).message = s.message := by
  unfold tickMessageTimer; split_ifs <;> rfl

theorem tickMessageTimer_social (s : Pet) (dt : ℚ) :
    (tickMessageTimer s dt).social = s.social := by
  unfold tickMessageTimer; split_ifs <;> rfl

theorem tickMessageTimer_sleep_mode (s : Pet) (dt : ℚ) :
    (tickMessageTimer s dt).sleep_mode = s.sleep_mode := by
  unfold tickMessageTimer; split_ifs <;> rfl

theorem tickMessageTimer_energy (s : Pet) (dt : ℚ) :
    (tickMessageTimer s dt).energy = s.energy := by
  unfold tickMessageTimer; split_ifs <;> rfl

theorem pickupCheck_not_picked (s : Pet) (snap : Snap) (now : ℚ)
    (h : snap.isPickedUp = false) :
    pickupCheck s snap now = { s with pickupShown := false } := by
  unfold pickupCheck; simp [h]

theorem shakeCheck_not_shaken (s : Pet) (snap : Snap) (now : ℚ)
    (h : snap.shakeDetected = false) :
    shakeCheck s snap now = { s with shakeShown := false } := by
  unfold shakeCheck; simp [h]

theorem idleCheck_neglect (s : Pet) (snap : Snap) (now : ℚ)
    (hsleep : s.sleep_mode = false)
    (hmv : now - snap.lastMovement > neglect_timeout) :
    idleCheck s snap now =
      { s with emotion := EmotionState.sad, message := Msg.lonely,
               message_timer := 3, social := max 0 (s.social - 1) } := by
  have hidle : now - snap.lastMovement > idle_timeout := by
    unfold neglect_timeout at hmv; unfold idle_timeout; linarith
  unfold idleCheck
  rw [if_pos ⟨hidle, hsleep⟩, if_pos hmv]

theorem tempComfort_social (s : Pet) (snap : Snap) :
    (tempComfort s snap).social = s.social := by
  unfold tempComfort; split_ifs <;> rfl

theorem tempComfort_sleep_mode (s : Pet) (snap : Snap) :
    (tempComfort s snap).sleep_mode = s.sleep_mode := by
  unfold tempComfort; split_ifs <;> rfl

theorem tempComfort_energy (s : Pet) (snap : Snap) :
    (tempComfort s snap).energy = s.energy := by
  unfold tempComfort; split_ifs <;> rfl

theorem tempComfort_message (s : Pet) (snap : Snap)
    (h10 : ¬ snap.temperature < 10) (h30 : ¬ snap.temperature > 30) :
    (tempComfort s snap).message = s.message := by
  unfold tempComfort
  split_ifs with a b <;> rfl

theorem nightDay_noop (s : Pet) (snap : Snap)
    (hsleep : s.sleep_mode = false)
    (he : envStateOf snap.simulation snap.light snap.simTime = EnvironmentState.night →
      ¬ s.energy < 50) :
    nightDay s snap = s := by
  unfold nightDay
  dsimp only
  split_ifs with a b c
  · exact absurd b (he a.1)
  · rfl
  · simp [hsleep] at c
  · rfl

theorem loudNoise_quiet (s : Pet) (snap : Snap) (h : ¬ snap.sound > 80) :
    loudNoise s snap = s := by
  unfold loudNoise; rw [if_neg h]

theorem processTimeNeeds_message (s : Pet) (now dt : ℚ) :
    (processTimeNeeds s now dt).message = s.message := by
  unfold processTimeNeeds healthNeed energyNeed hungerNeed
  dsimp only; split_ifs <;> rfl

theorem processTimeNeeds_social (s : Pet) (now dt : ℚ) :
    (processTimeNeeds s now dt).social = s.social := by
  unfold processTimeNeeds healthNeed energyNeed hungerNeed
  dsimp only; split_ifs <;> rfl

theorem processTimeNeeds_sleep_mode (s : Pet) (now dt : ℚ) :
    (processTimeNeeds s now dt).sleep_mode = s.sleep_mode := by
  unfold processTimeNeeds healthNeed energyNeed hungerNeed
  dsimp only; split_ifs <;> rfl

theorem updateEmotion_message (s : Pet) (snap : Snap) :
    (updateEmotion s snap).message = s.message := rfl

theorem updateEmotion_social (s : Pet) (snap : Snap) :
    (updateEmotion s snap).social = s.social := rfl

theorem updateEmotion_sleep_mode (s : Pet) (snap : Snap) :
    (updateEmotion s snap).sleep_mode = s.sleep_mode := rfl

theorem decayStats_message (s : Pet) (dt : ℚ) :
    (decayStats s dt).message = s.message := by
  unfold decayStats; split_ifs <;> rfl

theorem decayStats_social_awake (s : Pet) (dt : ℚ) (h : s.sleep_mode = false) :
    (decayStats s dt).social = max 0 (s.social - (1/5) * dt) := by
  unfold decayStats; rw [if_pos h]

def snapNeglect : Snap :=
  { light := 500, temperature := 22, sound := 30, lastMovement := 300
    isPickedUp := false, shakeDetected := false
    simulation := false, simTime := EnvironmentState.day }

/-- C4 counterexample: a pet with the initial stats, sleep off and
`last_movement` 700 s in the past ends one `update(0)` call with emotion
HAPPY — the SAD set by the neglect branch is overwritten by the final
emotion resolution. -/
theorem neglect_emotion_c4_counterexample :
    (initPet 0).sleep_mode = false ∧
    (1000 : ℚ) - snapNeglect.lastMovement = 700 ∧
    (update (initPet 0) snapNeglect 1000 0).emotion = EmotionState.happy ∧
    EmotionState.happy ≠ EmotionState.sad := by
  refine ⟨rfl, by norm_num [snapNeglect], ?_, by decide⟩
  rw [update_emotion_eq]
  norm_num [tickMessageTimer, processMovement, pickupCheck, shakeCheck, idleCheck,
    processEnvironment, tempComfort, nightDay, loudNoise, processTimeNeeds, hungerNeed,
    energyNeed, healthNeed, resolveEmotion, envStateOf, initPet, snapNeglect,
    idle_timeout, neglect_timeout, preferred_temp_min, preferred_temp_max,
    min_def, max_def]

/-- C4 (amended): with sleep off and the snapshot's `last_movement` 700 s
in the past (no pickup/shake edge, no extreme temperature, no
night-auto-sleep trigger, no loud sound), one `update(dt)` sets the
lonely message and decrements `social` by 1 (clamped at 0) before the
end-of-update decay of `0.2·dt`; the emotion set to SAD by the neglect
branch is then re-resolved by the priority chain, so the final emotion
is the resolver's output on the post-time-needs stats, not necessarily
SAD. -/
theorem neglect_update_c4_amended :
    ∀ (s : Pet) (snap : Snap) (now dt : ℚ),
      s.sleep_mode = false →
      now - snap.lastMovement = 700 →
      snap.isPickedUp = false →
      snap.shakeDetected = false →
      ¬ snap.temperature < 10 →
      ¬ snap.temperature > 30 →
      (envStateOf snap.simulation snap.light snap.simTime = EnvironmentState.night →
        ¬ s.energy < 50) →
      ¬ snap.sound > 80 →
      (update s snap now dt).message = Msg.lonely ∧
      (update s snap now dt).social = max 0 (max 0 (s.social - 1) - (1/5) * dt) ∧
      (update s snap now dt).emotion =
        (fun m => resolveEmotion m.sleep_mode m.health m.hunger m.comfort
            m.happiness m.energy m.social snap.temperature)
          (processTimeNeeds
            (processEnvironment (processMovement (tickMessageTimer s dt) snap now) snap)
            now dt) := by
  intro s snap now dt hsleep hmv hpick hshake h10 h30 henergy hsound
  have hmv6 : now - snap.lastMovement > neglect_timeout := by
    rw [hmv]; norm_num [neglect_timeout]
  have hslp2 :
      ({ tickMessageTimer s dt with pickupShown := false, shakeShown := false } : Pet).sleep_mode
        = false := by
    show (tickMessageTimer s dt).sleep_mode = false
    rw [tickMessageTimer_sleep_mode]; exact hsleep
  have hm1 : processMovement (tickMessageTimer s dt) snap now
      = { tickMessageTimer s dt with
            pickupShown := false, shakeShown := false,
            emotion := EmotionState.sad, message := Msg.lonely, message_timer := 3,
            social := max 0 ((tickMessageTimer s dt).social - 1) } := by
    unfold processMovement
    rw [pickupCheck_not_picked _ _ _ hpick, shakeCheck_not_shaken _ _ _ hshake,
        idleCheck_neglect _ _ _ hslp2 hmv6]
  have hMsleep :
      ({ tickMessageTimer s dt with
           pickupShown := false, shakeShown := false,
           emotion := EmotionState.sad, message := Msg.lonely, message_timer := 3,
           social := max 0 ((tickMessageTimer s dt).social - 1) } : Pet).sleep_mode = false := by
    show (tickMessageTimer s dt).sleep_mode = false
    rw [tickMessageTimer_sleep_mode]; exact hsleep
  have hm2 : ∀ x : Pet, x.sleep_mode = false → x.energy = s.energy →
      processEnvironment x snap = tempComfort x snap := by
    intro x hx hxe
    unfold processEnvironment
    rw [nightDay_noop _ _ (by rw [tempComfort_sleep_mode]; exact hx)
          (fun hnight => by rw [tempComfort_energy, hxe]; exact henergy hnight),
        loudNoise_quiet _ _ hsound]
  have hMenergy :
      ({ tickMessageTimer s dt with
           pickupShown := false, shakeShown := false,
           emotion := EmotionState.sad, message := Msg.lonely, message_timer := 3,
           social := max 0 ((tickMessageTimer s dt).social - 1) } : Pet).energy = s.energy := by
    show (tickMessageTimer s dt).energy = s.energy
    exact tickMessageTimer_energy s dt
  refine ⟨?_, ?_, update_emotion_eq s snap now dt⟩
  · show (decayStats (updateEmotion (processTimeNeeds (processEnvironment
        (processMovement (tickMessageTimer s dt) snap now) snap) now dt) snap) dt).message
      = Msg.lonely
    rw [decayStats_message, updateEmotion_message, processTimeNeeds_message, hm1,
        hm2 _ hMsleep hMenergy, tempComfort_message _ _ h10 h30]
  · show (decayStats (updateEmotion (processTimeNeeds (processEnvironment
        (processMovement (tickMessageTimer s dt) snap now) snap) now dt) snap) dt).social
      = max 0 (max 0 (s.social - 1) - (1/5) * dt)
    rw [hm1, hm2 _ hMsleep hMenergy]
    rw [decayStats_social_awake _ _ (by
          rw [updateEmotion_sleep_mode, processTimeNeeds_sleep_mode, tempComfort_sleep_mode]
          exact hMsleep)]
    rw [updateEmotion_social, processTimeNeeds_social, tempComfort_social]
    show max 0 (max 0 ((tickMessageTimer s dt).social - 1) - (1/5) * dt)
      = max 0 (max 0 (s.social - 1) - (1/5) * dt)
    rw [tickMessageTimer_social]

/-- Witness for C4 (amended) at the concrete neglect scenario. -/
theorem neglect_update_c4_amended_witness :
    (update (initPet 0) snapNeglect 1000 0).message = Msg.lonely ∧
    (update (initPet 0) snapNeglect 1000 0).social
      = max 0 (max 0 ((initPet 0).social - 1) - (1/5) * 0) := by
  have h := neglect_update_c4_amended (initPet 0) snapNeglect 1000 0
    rfl (by norm_num [snapNeglect]) rfl rfl
    (by norm_num [snapNeglect]) (by norm_num [snapNeglect])
    (by decide) (by norm_num [snapNeglect])
  exact ⟨h.1, h.2.1⟩

end SentimoTch
